import Mathlib

/-! Mobile navigation toggle (`static/js/main.js`)

A shallow embedding of the script and of the part of the DOM it uses.

The file holds one statement, the call of line 2 that would register a
`DOMContentLoaded` callback on the document.  The body of that callback looks
up the elements `nav-toggle` and `nav-links`, declares the inner function
`toggleMenu` (never called) and, when both elements were found, registers the
closure of lines 10 to 12 as `click` listener of the toggle and the closure of
lines 15 to 19 as `click` listener of the document.

Line 21, the last line of the body, is the HTML tag
`<script src=...></script>`.  No JavaScript statement starts with `<`, so the
file is rejected as a whole when it is parsed (`SyntaxError`): line 2 is never
run, no callback exists and no listener is ever registered.  `main` below is
the script as it is shipped.

Modelling choices:

* The document is a forest of elements; a node is referred to by its path of
  child indices from the document node, and the empty path is the document
  node itself.  `a.contains(b)` is "the path of `a` is an initial segment of
  the path of `b`".
* A JavaScript value that is either an element or `null` is an
  `Option NodeRef`; a member access on `null` is the error `TypeError`.
* A class list is the token set of a `DOMTokenList`, kept as a list of tokens.
* A `click` bubbles: the listeners of the target run first, then those of each
  ancestor, and last those of the document.
* The closures of lines 10 to 12 and 15 to 19 and the function of lines 5 to 7
  are embedded as written, so that what a call of them does can be stated.
-/

namespace NavToggle

/-! ## The DOM -/

/-- An element: its `id`, the tokens of its `classList`, and its child elements. -/
inductive Element where
  | mk (id : String) (classList : List String) (children : List Element)

/-- The `id` attribute of an element (the empty string when it has none). -/
def Element.id : Element → String
  | .mk i _ _ => i

/-- The tokens of `element.classList`. -/
def Element.classList : Element → List String
  | .mk _ cl _ => cl

/-- The child elements of an element. -/
def Element.children : Element → List Element
  | .mk _ _ cs => cs

/-- The document node, given by its child elements. -/
abbrev Document := List Element

/-- A reference to a node: the child indices leading to it from the document
node.  The empty path is the document node itself. -/
abbrev NodeRef := List Nat

mutual
/-- Search of the subtree of an element, in tree order, for the first element
with the given `id`; the result is the path relative to the element. -/
def Element.findId (i : String) : Element → Option NodeRef
  | .mk eid _ cs => if eid = i then some [] else findIdList i 0 cs
/-- Search of a list of sibling subtrees, the first of which is child number `k`. -/
def findIdList (i : String) (k : Nat) : List Element → Option NodeRef
  | [] => none
  | e :: es =>
    match Element.findId i e with
    | some p => some (k :: p)
    | none => findIdList i (k + 1) es
end

/-- The lookup `document.getElementById(i)`: the first element in tree order
whose `id` is `i`, or `null`. -/
def getElementById (d : Document) (i : String) : Option NodeRef :=
  findIdList i 0 d

/-- The descendant of an element at a relative path. -/
def Element.descend : Element → NodeRef → Option Element
  | e, [] => some e
  | e, k :: p =>
    match e.children[k]? with
    | none => none
    | some c => c.descend p

/-- The element a reference points to; the document node is not an element. -/
def elementAt (d : Document) : NodeRef → Option Element
  | [] => none
  | k :: p =>
    match d[k]? with
    | none => none
    | some e => e.descend p

/-- The `id` of the element at a reference. -/
def idAt (d : Document) (n : NodeRef) : Option String :=
  (elementAt d n).map Element.id

/-- The class list of the element at a reference. -/
def classListOf (d : Document) (n : NodeRef) : Option (List String) :=
  (elementAt d n).map Element.classList

/-- Replacement of the class list of the descendant at a relative path. -/
def Element.modifyClassList (f : List String → List String) : Element → NodeRef → Element
  | .mk i cl cs, [] => .mk i (f cl) cs
  | .mk i cl cs, k :: p =>
    match cs[k]? with
    | none => .mk i cl cs
    | some c => .mk i cl (cs.set k (c.modifyClassList f p))

/-- Replacement of the class list of the element at a reference; the rest of
the document is kept. -/
def modifyClassList (f : List String → List String) (d : Document) : NodeRef → Document
  | [] => d
  | k :: p =>
    match d[k]? with
    | none => d
    | some e => d.set k (e.modifyClassList f p)

/-! ## `DOMTokenList` -/

/-- The token set after `classList.remove(token)`. -/
def DOMTokenList.remove (token : String) (cl : List String) : List String :=
  cl.filter (fun c => c != token)

/-- The token set after `classList.toggle(token)`: a present token is removed,
an absent one is appended. -/
def DOMTokenList.toggle (token : String) (cl : List String) : List String :=
  if cl.contains token then DOMTokenList.remove token cl else cl ++ [token]

/-! ## Events and listeners -/

/-- The two event types the script subscribes to. -/
inductive EventType where
  | DOMContentLoaded
  | click
  deriving DecidableEq

/-- The two closures the script writes as `click` listeners, with the variables
each captures. -/
inductive Listener where
  /-- The closure of lines 10 to 12, capturing `links`. -/
  | toggleClick (links : Option NodeRef)
  /-- The closure of lines 15 to 19, capturing `toggle` and `links`. -/
  | outsideClick (toggle links : Option NodeRef)
  deriving DecidableEq

/-- One entry of an event listener list. -/
structure Registration where
  target : NodeRef
  type : EventType
  callback : Listener
  deriving DecidableEq

/-- The state of the page: the document and the registered listeners, in
registration order. -/
structure Page where
  document : Document
  listeners : List Registration

/-- The call `el.classList.toggle(token)`. -/
def classListToggle (el : Option NodeRef) (token : String) (pg : Page) : Except String Page :=
  match el with
  | none => .error "TypeError"
  | some n => .ok { pg with document := modifyClassList (DOMTokenList.toggle token) pg.document n }

/-- The call `el.classList.remove(token)`. -/
def classListRemove (el : Option NodeRef) (token : String) (pg : Page) : Except String Page :=
  match el with
  | none => .error "TypeError"
  | some n => .ok { pg with document := modifyClassList (DOMTokenList.remove token) pg.document n }

/-- The call `el.contains(other)`: whether `other` is `el` or a descendant of it. -/
def contains (el : Option NodeRef) (other : NodeRef) : Except String Bool :=
  match el with
  | none => .error "TypeError"
  | some n => .ok (n.isPrefixOf other)

/-- The inner function of lines 5 to 7. -/
def toggleMenu (pg : Page) : Except String Page :=
  classListToggle (getElementById pg.document "navMenu") "open" pg

/-- The body of the closure of lines 15 to 19, for an event with the given target. -/
def outsideClickBody (toggle links : Option NodeRef) (target : NodeRef) (pg : Page) :
    Except String Page := do
  let inLinks ← contains links target
  if inLinks then
    .ok pg
  else do
    let inToggle ← contains toggle target
    if inToggle then .ok pg else classListRemove links "open" pg

/-- A call of a listener for an event with the given target. -/
def Listener.handleEvent : Listener → NodeRef → Page → Except String Page
  | .toggleClick links, _, pg => classListToggle links "open" pg
  | .outsideClick toggle links, target, pg => outsideClickBody toggle links target pg

/-- The nodes an event visits while it bubbles: the target, then each ancestor,
and last the document node. -/
def eventPath (target : NodeRef) : List NodeRef :=
  target.inits.reverse

/-- The listeners of one node for one event type are called in registration order. -/
def invokeListeners (type : EventType) (target node : NodeRef) (pg : Page) :
    Except String Page :=
  (pg.listeners.filter (fun r => decide (r.target = node ∧ r.type = type))).foldlM
    (fun pg1 r => r.callback.handleEvent target pg1) pg

/-- Dispatch of a bubbling event at a target. -/
def dispatchEvent (type : EventType) (target : NodeRef) (pg : Page) : Except String Page :=
  (eventPath target).foldlM (fun pg1 node => invokeListeners type target node pg1) pg

/-- The script as shipped, loaded into a page with the document `d`.  The tag
of line 21 makes the file a `SyntaxError`; the browser reports it and runs
nothing of the file, so the page keeps its document and has no listener. -/
def main (d : Document) : Except String Page :=
  .ok ⟨d, []⟩

/-- What can happen to the page: the ready signal, or a click on a node. -/
inductive Event where
  | ready
  | click (target : NodeRef)

/-- Delivery of one event. -/
def Event.fire : Event → Page → Except String Page
  | .ready, pg => dispatchEvent .DOMContentLoaded [] pg
  | .click target, pg => dispatchEvent .click target pg

/-- Delivery of a sequence of events. -/
def run (evs : List Event) (pg : Page) : Except String Page :=
  evs.foldlM (fun pg1 e => e.fire pg1) pg

/-- The script is evaluated on a document and then the events are delivered. -/
def boot (d : Document) (evs : List Event) : Except String Page :=
  main d >>= run evs

/-! ## Sample documents -/

/-- A page with a toggle button holding an icon, a links container holding a
link, and a main area; the menu is closed. -/
def sampleDoc : Document :=
  [.mk "" [] [
    .mk "nav-toggle" ["btn"] [.mk "" ["icon"] []],
    .mk "nav-links" ["nav"] [.mk "" ["item"] []],
    .mk "content" [] []]]

/-- The same page with the menu open in the markup. -/
def sampleDocOpen : Document :=
  [.mk "" [] [
    .mk "nav-toggle" ["btn"] [.mk "" ["icon"] []],
    .mk "nav-links" ["nav", "open"] [.mk "" ["item"] []],
    .mk "content" [] []]]

/-- A page without a links container, with a `navMenu` element. -/
def sampleDocNoLinks : Document :=
  [.mk "" [] [
    .mk "nav-toggle" ["btn"] [],
    .mk "navMenu" ["menu"] []]]

/-! ## Pages after a call of a closure, and the marker class -/

/-- The page after the closure of lines 10 to 12 ran with `links` bound to `l`. -/
def Page.toggleOpen (l : NodeRef) (pg : Page) : Page :=
  { pg with document := modifyClassList (DOMTokenList.toggle "open") pg.document l }

/-- The page after `links.classList.remove("open")` ran with `links` bound to `l`. -/
def Page.removeOpen (l : NodeRef) (pg : Page) : Page :=
  { pg with document := modifyClassList (DOMTokenList.remove "open") pg.document l }

/-- The element at `n` carries the marker class `open`. -/
def markerPresent (d : Document) (n : NodeRef) : Prop :=
  ∃ cl, classListOf d n = some cl ∧ "open" ∈ cl

/-- The element at `n` does not carry the marker class `open`. -/
def markerAbsent (d : Document) (n : NodeRef) : Prop :=
  ∃ cl, classListOf d n = some cl ∧ "open" ∉ cl

instance (d : Document) (n : NodeRef) : Decidable (markerPresent d n) :=
  match h : classListOf d n with
  | some cl =>
    if hc : "open" ∈ cl then isTrue ⟨cl, h, hc⟩
    else isFalse (fun ⟨cl2, h2, hc2⟩ => by rw [h] at h2; cases h2; exact hc hc2)
  | none => isFalse (fun ⟨cl2, h2, _⟩ => by rw [h] at h2; cases h2)

instance (d : Document) (n : NodeRef) : Decidable (markerAbsent d n) :=
  match h : classListOf d n with
  | some cl =>
    if hc : "open" ∈ cl then isFalse (fun ⟨cl2, h2, hc2⟩ => by rw [h] at h2; cases h2; exact hc2 hc)
    else isTrue ⟨cl, h, hc⟩
  | none => isFalse (fun ⟨cl2, h2, _⟩ => by rw [h] at h2; cases h2)

/-! ## The document after a class list was replaced -/

theorem Element.descend_modify_id (f : List String → List String) :
    ∀ (l : NodeRef) (e : Element) (n : NodeRef),
      ((e.modifyClassList f l).descend n).map Element.id = (e.descend n).map Element.id := by
  intro l
  induction l with
  | nil =>
    rintro ⟨i, cl, cs⟩ n
    cases n with
    | nil => simp [Element.modifyClassList, Element.descend, Element.id]
    | cons j p => simp [Element.modifyClassList, Element.descend, Element.children]
  | cons k l ih =>
    rintro ⟨i, cl, cs⟩ n
    cases hk : cs[k]? with
    | none => simp [Element.modifyClassList, hk]
    | some c =>
      cases n with
      | nil => simp [Element.modifyClassList, Element.descend, Element.id, hk]
      | cons j p =>
        simp only [Element.modifyClassList, hk, Element.descend, Element.children]
        by_cases hjk : k = j
        · subst hjk
          have hlt : k < cs.length := by
            rcases List.getElem?_eq_some.mp hk with ⟨h, _⟩
            exact h
          simp [List.getElem?_set, hlt, hk, ih c p]
        · simp [List.getElem?_set, hjk]

theorem Element.descend_modify_classList (f : List String → List String) :
    ∀ (l : NodeRef) (e : Element) (n : NodeRef),
      ((e.modifyClassList f l).descend n).map Element.classList =
        if n = l then (e.descend n).map (fun x => f x.classList)
        else (e.descend n).map Element.classList := by
  intro l
  induction l with
  | nil =>
    rintro ⟨i, cl, cs⟩ n
    cases n with
    | nil => simp [Element.modifyClassList, Element.descend, Element.classList]
    | cons j p => simp [Element.modifyClassList, Element.descend, Element.children]
  | cons k l ih =>
    rintro ⟨i, cl, cs⟩ n
    cases hk : cs[k]? with
    | none =>
      cases n with
      | nil => simp [Element.modifyClassList, hk]
      | cons j p =>
        by_cases hjk : k = j
        · subst hjk
          simp [Element.modifyClassList, Element.descend, Element.children, hk]
        · have hne : ¬ (j = k) := fun h => hjk h.symm
          simp [Element.modifyClassList, hk, hne]
    | some c =>
      cases n with
      | nil => simp [Element.modifyClassList, Element.descend, Element.classList, hk]
      | cons j p =>
        simp only [Element.modifyClassList, hk, Element.descend, Element.children]
        by_cases hjk : k = j
        · subst hjk
          have hlt : k < cs.length := by
            rcases List.getElem?_eq_some.mp hk with ⟨h, _⟩
            exact h
          simp [List.getElem?_set, hlt, hk, ih c p]
        · have hne : ¬ (j = k) := fun h => hjk h.symm
          simp [List.getElem?_set, hjk, hne]

theorem idAt_modifyClassList (f : List String → List String) (d : Document)
    (l n : NodeRef) : idAt (modifyClassList f d l) n = idAt d n := by
  cases l with
  | nil => simp [modifyClassList]
  | cons k l =>
    cases hk : d[k]? with
    | none => simp [modifyClassList, hk]
    | some e =>
      cases n with
      | nil => simp [idAt, elementAt]
      | cons j p =>
        simp only [modifyClassList, hk, idAt, elementAt]
        by_cases hjk : k = j
        · subst hjk
          have hlt : k < d.length := by
            rcases List.getElem?_eq_some.mp hk with ⟨h, _⟩
            exact h
          simp [List.getElem?_set, hlt, hk, Element.descend_modify_id f l e p]
        · simp [List.getElem?_set, hjk]

theorem classListOf_modifyClassList (f : List String → List String) (d : Document)
    (l n : NodeRef) :
    classListOf (modifyClassList f d l) n =
      if n = l then (classListOf d n).map f else classListOf d n := by
  cases l with
  | nil =>
    cases n with
    | nil => simp [modifyClassList, classListOf, elementAt]
    | cons j p => simp [modifyClassList]
  | cons k l =>
    cases hk : d[k]? with
    | none =>
      cases n with
      | nil => simp [modifyClassList, hk]
      | cons j p =>
        by_cases hjk : k = j
        · subst hjk
          simp [modifyClassList, classListOf, elementAt, hk]
        · have hne : ¬ (j = k) := fun h => hjk h.symm
          simp [modifyClassList, hk, hne]
    | some e =>
      cases n with
      | nil => simp [classListOf, elementAt]
      | cons j p =>
        simp only [modifyClassList, hk, classListOf, elementAt]
        by_cases hjk : k = j
        · subst hjk
          have hlt : k < d.length := by
            rcases List.getElem?_eq_some.mp hk with ⟨h, _⟩
            exact h
          simp [List.getElem?_set, hlt, hk, Element.descend_modify_classList f l e p,
            Option.map_map, Function.comp_def]
        · have hne : ¬ (j = k) := fun h => hjk h.symm
          simp [List.getElem?_set, hjk, hne]

/-! ## What `getElementById` finds -/

mutual
theorem Element.findId_id (i : String) :
    ∀ (e : Element) (p : NodeRef), e.findId i = some p →
      (e.descend p).map Element.id = some i
  | .mk eid cl cs, p, h => by
    unfold Element.findId at h
    by_cases he : eid = i
    · simp only [he, if_true, Option.some.injEq] at h
      subst h
      simp [Element.descend, Element.id, he]
    · simp only [he, if_false] at h
      obtain ⟨j, q, c, hp, hc, hq⟩ := findIdList_id i cs 0 p h
      subst hp
      simp [Element.descend, Element.children, hc, hq]
theorem findIdList_id (i : String) :
    ∀ (es : List Element) (k : Nat) (p : NodeRef), findIdList i k es = some p →
      ∃ j q c, p = (k + j) :: q ∧ es[j]? = some c ∧ (c.descend q).map Element.id = some i
  | [], k, p, h => by simp [findIdList] at h
  | e :: es, k, p, h => by
    unfold findIdList at h
    cases hf : Element.findId i e with
    | some q =>
      simp only [hf, Option.some.injEq] at h
      exact ⟨0, q, e, by simp [h.symm], by simp, Element.findId_id i e q hf⟩
    | none =>
      simp only [hf] at h
      obtain ⟨j, q, c, hp, hc, hq⟩ := findIdList_id i es (k + 1) p h
      have hkj : k + 1 + j = k + (j + 1) := by omega
      exact ⟨j + 1, q, c, by rw [hp, hkj], by simpa using hc, hq⟩
end

theorem getElementById_idAt {d : Document} {i : String} {p : NodeRef}
    (h : getElementById d i = some p) : idAt d p = some i := by
  obtain ⟨j, q, c, hp, hc, hq⟩ := findIdList_id i d 0 p h
  subst hp
  simp [idAt, elementAt, hc, hq]

theorem getElementById_ne_nil {d : Document} {i : String} {p : NodeRef}
    (h : getElementById d i = some p) : p ≠ [] := by
  intro hp
  have h1 := getElementById_idAt h
  subst hp
  simp [idAt, elementAt] at h1

theorem getElementById_ne {d : Document} {i j : String} {p q : NodeRef}
    (hp : getElementById d i = some p) (hq : getElementById d j = some q) (hij : i ≠ j) :
    p ≠ q := by
  intro hpq
  have h1 := getElementById_idAt hp
  have h2 := getElementById_idAt hq
  rw [hpq, h2] at h1
  exact hij (Option.some.inj h1).symm

/-! ## Tokens after `toggle` and `remove` -/

theorem DOMTokenList.mem_remove (token c : String) (cl : List String) :
    c ∈ DOMTokenList.remove token cl ↔ c ∈ cl ∧ c ≠ token := by
  simp [DOMTokenList.remove]

theorem DOMTokenList.mem_toggle_self (token : String) (cl : List String) :
    token ∈ DOMTokenList.toggle token cl ↔ token ∉ cl := by
  by_cases h : token ∈ cl <;> simp [DOMTokenList.toggle, DOMTokenList.remove, h]

theorem DOMTokenList.mem_toggle_other (token c : String) (cl : List String) (hc : c ≠ token) :
    c ∈ DOMTokenList.toggle token cl ↔ c ∈ cl := by
  by_cases h : token ∈ cl <;> simp [DOMTokenList.toggle, DOMTokenList.remove, h, hc]

theorem DOMTokenList.remove_of_not_mem (token : String) (cl : List String) (h : token ∉ cl) :
    DOMTokenList.remove token cl = cl := by
  simp only [DOMTokenList.remove, List.filter_eq_self]
  intro a ha
  have : a ≠ token := fun e => h (e ▸ ha)
  simpa using this

theorem DOMTokenList.remove_remove (token : String) (cl : List String) :
    DOMTokenList.remove token (DOMTokenList.remove token cl) = DOMTokenList.remove token cl := by
  simp [DOMTokenList.remove, List.filter_filter]

/-! ## The two click handlers, called on their own -/

theorem handleEvent_toggleClick (l target : NodeRef) (pg : Page) :
    (Listener.toggleClick (some l)).handleEvent target pg = .ok (pg.toggleOpen l) := rfl

theorem handleEvent_outsideClick (t l target : NodeRef) (pg : Page) :
    (Listener.outsideClick (some t) (some l)).handleEvent target pg =
      .ok (if l.isPrefixOf target || t.isPrefixOf target then pg else pg.removeOpen l) := by
  simp only [Listener.handleEvent, outsideClickBody, contains, classListRemove, bind,
    Except.bind, Page.removeOpen]
  cases l.isPrefixOf target <;> cases t.isPrefixOf target <;> rfl

theorem Page.classListOf_toggleOpen (l : NodeRef) (pg : Page) (n : NodeRef) :
    classListOf (pg.toggleOpen l).document n =
      if n = l then (classListOf pg.document n).map (DOMTokenList.toggle "open")
      else classListOf pg.document n :=
  classListOf_modifyClassList _ pg.document l n

theorem Page.classListOf_removeOpen (l : NodeRef) (pg : Page) (n : NodeRef) :
    classListOf (pg.removeOpen l).document n =
      if n = l then (classListOf pg.document n).map (DOMTokenList.remove "open")
      else classListOf pg.document n :=
  classListOf_modifyClassList _ pg.document l n

theorem contains_some (n other : NodeRef) (b : Bool) :
    contains (some n) other = .ok b ↔ n.isPrefixOf other = b := by
  simp [contains]

theorem classListOf_isSome_of_idAt {d : Document} {n : NodeRef} (i : String)
    (h : idAt d n = some i) : ∃ cl, classListOf d n = some cl := by
  unfold idAt at h
  unfold classListOf
  cases he : elementAt d n with
  | none => simp [he] at h
  | some e => exact ⟨e.classList, rfl⟩

theorem not_markerPresent_of_markerAbsent {d : Document} {n : NodeRef}
    (h1 : markerAbsent d n) (h2 : markerPresent d n) : False := by
  obtain ⟨cl1, e1, a1⟩ := h1
  obtain ⟨cl2, e2, a2⟩ := h2
  rw [e1] at e2
  cases e2
  exact a1 a2

/-! ## Events on the page the shipped script leaves -/

theorem main_eq (d : Document) : main d = .ok ⟨d, []⟩ := rfl

theorem invokeListeners_of_no_listeners (type : EventType) (target node : NodeRef)
    (pg : Page) (h : pg.listeners = []) : invokeListeners type target node pg = .ok pg := by
  unfold invokeListeners
  rw [h]
  rfl

theorem dispatchEvent_of_no_listeners (type : EventType) (target : NodeRef)
    (pg : Page) (h : pg.listeners = []) : dispatchEvent type target pg = .ok pg := by
  unfold dispatchEvent
  generalize eventPath target = ns
  induction ns with
  | nil => rfl
  | cons n ns ih =>
    rw [List.foldlM_cons, invokeListeners_of_no_listeners type target n pg h]
    exact ih

theorem fire_of_no_listeners (e : Event) (pg : Page) (h : pg.listeners = []) :
    e.fire pg = .ok pg := by
  cases e with
  | ready => exact dispatchEvent_of_no_listeners .DOMContentLoaded [] pg h
  | click target => exact dispatchEvent_of_no_listeners .click target pg h

theorem run_of_no_listeners (evs : List Event) (pg : Page) (h : pg.listeners = []) :
    run evs pg = .ok pg := by
  unfold run
  induction evs with
  | nil => rfl
  | cons e evs ih =>
    rw [List.foldlM_cons, fire_of_no_listeners e pg h]
    exact ih

/-- Whatever events are delivered, the page the shipped script leaves is the
loaded document without a listener. -/
theorem boot_eq (d : Document) (evs : List Event) : boot d evs = .ok ⟨d, []⟩ := by
  unfold boot
  rw [main_eq]
  exact run_of_no_listeners evs ⟨d, []⟩ rfl

/-! ## The properties of the controller -/

/-- C1 fails on the script as shipped.  On the sample page the toggle is
`[0, 0]` and the links container `[0, 1]` with the class list `nav`.  After the
ready signal no listener is subscribed on the toggle, and after a click on the
toggle the class list is still `nav`: the marker was absent and has not been
added.  The closure of lines 10 to 12, called on the same page, does add it. -/
theorem shipped_toggle_click_leaves_marker_absent :
    getElementById sampleDoc "nav-toggle" = some [0, 0] ∧
    getElementById sampleDoc "nav-links" = some [0, 1] ∧
    classListOf sampleDoc [0, 1] = some ["nav"] ∧
    (boot sampleDoc [.ready]).toOption.map (fun pg => pg.listeners) = some [] ∧
    (boot sampleDoc [.ready, .click [0, 0]]).toOption.map
      (fun pg => classListOf pg.document [0, 1]) = some (some ["nav"]) ∧
    ¬ (∃ pg, boot sampleDoc [.ready, .click [0, 0]] = .ok pg ∧
      markerPresent pg.document [0, 1]) ∧
    ((Listener.toggleClick (some [0, 1])).handleEvent [0, 0] ⟨sampleDoc, []⟩).toOption.map
      (fun pg => classListOf pg.document [0, 1]) = some (some ["nav", "open"]) := by
  refine ⟨by decide, by decide, by decide, by rfl, by rfl, ?_, by rfl⟩
  rintro ⟨pg, hpg, hopen⟩
  rw [boot_eq] at hpg
  cases hpg
  revert hopen
  decide

/-- C2 fails on the script as shipped.  On the sample page with the menu open,
after the ready signal no listener is subscribed on the document, and after a
click on the main area `[0, 2]`, which is neither the toggle nor inside the
links container, the class list of the links container is still `nav open`.
The closure of lines 15 to 19, called for that target, does remove the marker. -/
theorem shipped_outside_click_leaves_marker_present :
    getElementById sampleDocOpen "nav-toggle" = some [0, 0] ∧
    getElementById sampleDocOpen "nav-links" = some [0, 1] ∧
    ([0, 2] : NodeRef) ≠ [0, 0] ∧ contains (some [0, 1]) [0, 2] = .ok false ∧
    markerPresent sampleDocOpen [0, 1] ∧
    (boot sampleDocOpen [.ready]).toOption.map (fun pg => pg.listeners) = some [] ∧
    (boot sampleDocOpen [.ready, .click [0, 2]]).toOption.map
      (fun pg => classListOf pg.document [0, 1]) = some (some ["nav", "open"]) ∧
    ¬ (∃ pg, boot sampleDocOpen [.ready, .click [0, 2]] = .ok pg ∧
      markerAbsent pg.document [0, 1]) ∧
    ((Listener.outsideClick (some [0, 0]) (some [0, 1])).handleEvent [0, 2]
      ⟨sampleDocOpen, []⟩).toOption.map
      (fun pg => classListOf pg.document [0, 1]) = some (some ["nav"]) := by
  refine ⟨by decide, by decide, by decide, rfl, by decide, by rfl, by rfl, ?_, by rfl⟩
  rintro ⟨pg, hpg, habsent⟩
  rw [boot_eq] at hpg
  cases hpg
  revert habsent
  decide

/-- C3: with both elements present and the marker on the links container, the
marker is still there after one click on the toggle has been dispatched.  On
the script as shipped this holds because the page has no listener: the click
runs no code and returns the page it was given. -/
theorem toggle_click_keeps_open_marker (d : Document) (t l : NodeRef)
    (_ht : getElementById d "nav-toggle" = some t)
    (_hl : getElementById d "nav-links" = some l) (clicks : List NodeRef) :
    ∃ pg, boot d (.ready :: clicks.map Event.click) = .ok pg ∧
      ∃ pg1, Event.fire (.click t) pg = .ok pg1 ∧
        (markerPresent pg.document l → markerPresent pg1.document l) ∧
        pg.listeners = [] ∧ pg1.document = pg.document :=
  ⟨⟨d, []⟩, boot_eq d _, ⟨d, []⟩, fire_of_no_listeners _ _ rfl, fun h => h, rfl, rfl⟩

/-- On the sample page with the menu open, a click on the toggle after one
click on the main area. -/
theorem toggle_click_keeps_open_marker_witness :
    getElementById sampleDocOpen "nav-toggle" = some [0, 0] ∧
    getElementById sampleDocOpen "nav-links" = some [0, 1] ∧
    ∃ pg, boot sampleDocOpen (.ready :: ([[0, 2]] : List NodeRef).map Event.click) = .ok pg ∧
      ∃ pg1, Event.fire (.click [0, 0]) pg = .ok pg1 ∧
        (markerPresent pg.document [0, 1] → markerPresent pg1.document [0, 1]) ∧
        pg.listeners = [] ∧ pg1.document = pg.document :=
  ⟨by decide, by decide,
    toggle_click_keeps_open_marker sampleDocOpen [0, 0] [0, 1] (by decide) (by decide)
      [[0, 2]]⟩

/-- C4: when `nav-toggle` or `nav-links` is missing, the delivery of the ready
signal returns without an error, the document is the one that was loaded, so
no class list was changed, and the page has no listener at all, so none for
`click` on an element or on the document; clicks delivered afterwards change
nothing either. -/
theorem ready_without_elements (d : Document)
    (_h : getElementById d "nav-toggle" = none ∨ getElementById d "nav-links" = none) :
    (∃ pg, boot d [.ready] = .ok pg ∧ pg.document = d ∧ pg.listeners = [] ∧
      ∀ r ∈ pg.listeners, r.type ≠ .click) ∧
    ∀ (clicks : List NodeRef),
      ∃ pg, boot d (.ready :: clicks.map Event.click) = .ok pg ∧ pg.document = d ∧
        pg.listeners = [] :=
  ⟨⟨⟨d, []⟩, boot_eq d _, rfl, rfl, fun r hr => by simp at hr⟩,
    fun clicks => ⟨⟨d, []⟩, boot_eq d _, rfl, rfl⟩⟩

/-- On the sample page without a links container. -/
theorem ready_without_elements_witness :
    (getElementById sampleDocNoLinks "nav-toggle" = none ∨
      getElementById sampleDocNoLinks "nav-links" = none) ∧
    ∃ pg, boot sampleDocNoLinks [.ready] = .ok pg ∧ pg.document = sampleDocNoLinks ∧
      pg.listeners = [] ∧ ∀ r ∈ pg.listeners, r.type ≠ .click :=
  ⟨Or.inr (by decide), (ready_without_elements sampleDocNoLinks (Or.inr (by decide))).1⟩

/-- C5: the closure of lines 15 to 19 is idempotent.  For a target outside the
toggle and outside the links container, a second call right after the first
returns without an error and leaves every class list as the first call left
it, and a links container without the marker keeps its class list through both
calls.  The same holds for two such clicks dispatched one after the other on
the page the script leaves: the second changes no class list, and a marker
that was absent stays absent. -/
theorem outside_click_idempotent (d : Document) (t l : NodeRef)
    (_ht : getElementById d "nav-toggle" = some t)
    (_hl : getElementById d "nav-links" = some l)
    (target : NodeRef) (h1 : contains (some t) target = .ok false)
    (h2 : contains (some l) target = .ok false) (pg : Page) :
    (∃ pg1 pg2, (Listener.outsideClick (some t) (some l)).handleEvent target pg = .ok pg1 ∧
      (Listener.outsideClick (some t) (some l)).handleEvent target pg1 = .ok pg2 ∧
      pg2.listeners = pg1.listeners ∧
      (∀ n, classListOf pg2.document n = classListOf pg1.document n) ∧
      (∀ cl, classListOf pg.document l = some cl → "open" ∉ cl →
        classListOf pg1.document l = some cl ∧ classListOf pg2.document l = some cl)) ∧
    ∀ (clicks : List NodeRef),
      ∃ pg0, boot d (.ready :: clicks.map Event.click) = .ok pg0 ∧
        ∃ pg1 pg2, Event.fire (.click target) pg0 = .ok pg1 ∧
          Event.fire (.click target) pg1 = .ok pg2 ∧
          (∀ n, classListOf pg2.document n = classListOf pg1.document n) ∧
          (markerAbsent pg0.document l → markerAbsent pg2.document l) := by
  have h3 := (contains_some t target false).mp h1
  have h4 := (contains_some l target false).mp h2
  have hc : ¬ ((l.isPrefixOf target || t.isPrefixOf target) = true) := by simp [h3, h4]
  constructor
  · refine ⟨pg.removeOpen l, (pg.removeOpen l).removeOpen l, ?_, ?_, rfl, ?_, ?_⟩
    · rw [handleEvent_outsideClick, if_neg hc]
    · rw [handleEvent_outsideClick, if_neg hc]
    · intro n
      by_cases hn : n = l
      · subst hn
        cases hcl : classListOf pg.document n <;>
          simp [Page.classListOf_removeOpen, hcl, DOMTokenList.remove_remove]
      · simp [Page.classListOf_removeOpen, hn]
    · intro cl hcl hopen
      simp [Page.classListOf_removeOpen, hcl, DOMTokenList.remove_of_not_mem "open" cl hopen]
  · intro clicks
    exact ⟨⟨d, []⟩, boot_eq d _, ⟨d, []⟩, ⟨d, []⟩, fire_of_no_listeners _ _ rfl,
      fire_of_no_listeners _ _ rfl, fun _ => rfl, fun h => h⟩

/-- On the sample page, two calls of the closure for a click on the main area
`[0, 2]`. -/
theorem outside_click_idempotent_witness :
    getElementById sampleDoc "nav-toggle" = some [0, 0] ∧
    getElementById sampleDoc "nav-links" = some [0, 1] ∧
    contains (some [0, 0]) [0, 2] = .ok false ∧ contains (some [0, 1]) [0, 2] = .ok false ∧
    ∃ pg1 pg2,
      (Listener.outsideClick (some [0, 0]) (some [0, 1])).handleEvent [0, 2]
        ⟨sampleDoc, []⟩ = .ok pg1 ∧
      (Listener.outsideClick (some [0, 0]) (some [0, 1])).handleEvent [0, 2] pg1 = .ok pg2 ∧
      pg2.listeners = pg1.listeners ∧
      (∀ n, classListOf pg2.document n = classListOf pg1.document n) ∧
      (∀ cl, classListOf sampleDoc [0, 1] = some cl → "open" ∉ cl →
        classListOf pg1.document [0, 1] = some cl ∧ classListOf pg2.document [0, 1] = some cl) :=
  ⟨by decide, by decide, rfl, rfl,
    (outside_click_idempotent sampleDoc [0, 0] [0, 1] (by decide) (by decide) [0, 2] rfl rfl
      ⟨sampleDoc, []⟩).1⟩

/-- C6: after the ready signal and any sequence of clicks, a click that takes
the links container from "marker absent" to "marker present" has the toggle on
its event path, the only place where the listener of the toggle is called; and
a call of the closure of lines 15 to 19 on a page without the marker returns a
page without the marker, for every target.  (On the script as shipped no click
changes the marker at all.) -/
theorem only_toggle_click_opens (d : Document) (t l : NodeRef)
    (ht : getElementById d "nav-toggle" = some t)
    (hl : getElementById d "nav-links" = some l)
    (clicks : List NodeRef) (target : NodeRef) :
    ∃ pg, boot d (.ready :: clicks.map Event.click) = .ok pg ∧
      ∃ pg1, Event.fire (.click target) pg = .ok pg1 ∧
        (markerAbsent pg.document l → markerPresent pg1.document l → t ∈ eventPath target) ∧
        ∀ (pg2 : Page), markerAbsent pg2.document l →
          ∃ pg3, (Listener.outsideClick (some t) (some l)).handleEvent target pg2 = .ok pg3 ∧
            markerAbsent pg3.document l := by
  refine ⟨⟨d, []⟩, boot_eq d _, ⟨d, []⟩, fire_of_no_listeners _ _ rfl, ?_, ?_⟩
  · intro h1 h2
    exact absurd h2 (fun h => not_markerPresent_of_markerAbsent h1 h)
  · rintro pg2 ⟨cl2, hcl2, h2⟩
    rw [handleEvent_outsideClick]
    by_cases hc : (l.isPrefixOf target || t.isPrefixOf target) = true
    · rw [if_pos hc]; exact ⟨pg2, rfl, cl2, hcl2, h2⟩
    · rw [if_neg hc]
      refine ⟨_, rfl, DOMTokenList.remove "open" cl2, ?_, ?_⟩
      · simp [Page.classListOf_removeOpen, hcl2]
      · simp [DOMTokenList.mem_remove]

/-- On the sample page, a click on the icon `[0, 0, 0]` inside the toggle after
one click on the main area. -/
theorem only_toggle_click_opens_witness :
    getElementById sampleDoc "nav-toggle" = some [0, 0] ∧
    getElementById sampleDoc "nav-links" = some [0, 1] ∧
    ∃ pg, boot sampleDoc (.ready :: ([[0, 2]] : List NodeRef).map Event.click) = .ok pg ∧
      ∃ pg1, Event.fire (.click [0, 0, 0]) pg = .ok pg1 ∧
        (markerAbsent pg.document [0, 1] → markerPresent pg1.document [0, 1] →
          [0, 0] ∈ eventPath [0, 0, 0]) ∧
        ∀ (pg2 : Page), markerAbsent pg2.document [0, 1] →
          ∃ pg3, (Listener.outsideClick (some [0, 0]) (some [0, 1])).handleEvent [0, 0, 0] pg2
              = .ok pg3 ∧ markerAbsent pg3.document [0, 1] :=
  ⟨by decide, by decide,
    only_toggle_click_opens sampleDoc [0, 0] [0, 1] (by decide) (by decide) [[0, 2]] [0, 0, 0]⟩

/-- C7, as the code has it: nothing changes a class list at page load.  For
every document, after the script and the ready signal the document is the
initial one, so the links container carries the marker then exactly when the
markup gave it. -/
theorem ready_keeps_document (d : Document) :
    ∃ pg, boot d [.ready] = .ok pg ∧ pg.document = d ∧
      ∀ n, (markerPresent pg.document n ↔ markerPresent d n) :=
  ⟨⟨d, []⟩, boot_eq d _, rfl, fun _ => Iff.rfl⟩

/-- C7, as stated, fails: on the sample page whose markup has the menu open,
after the ready signal and before any click the links container still has the
class list `nav open`, so the marker is not absent. -/
theorem ready_leaves_open_marker :
    getElementById sampleDocOpen "nav-toggle" = some [0, 0] ∧
    getElementById sampleDocOpen "nav-links" = some [0, 1] ∧
    (boot sampleDocOpen [.ready]).toOption.map
      (fun pg => classListOf pg.document [0, 1]) = some (some ["nav", "open"]) ∧
    ¬ (∃ pg, boot sampleDocOpen [.ready] = .ok pg ∧ markerAbsent pg.document [0, 1]) := by
  refine ⟨by decide, by decide, by rfl, ?_⟩
  rintro ⟨pg, hpg, habsent⟩
  rw [boot_eq] at hpg
  cases hpg
  revert habsent
  decide

/-- C8: `toggleMenu` is dead code.  For every document and every sequence of
ready signals and clicks the run ends without an error, whether or not a
`navMenu` element exists, and the `navMenu` element, when there is one, has the
class list it started with.  A call of `toggleMenu` would be visible: without a
`navMenu` element it raises `TypeError`, and with one it inverts the marker
there. -/
theorem toggleMenu_never_runs (d : Document) (evs : List Event) :
    (∃ pg, boot d evs = .ok pg ∧
      ∀ m, getElementById d "navMenu" = some m →
        idAt pg.document m = some "navMenu" ∧ classListOf pg.document m = classListOf d m) ∧
    (getElementById d "navMenu" = none →
      ∀ ls, toggleMenu ⟨d, ls⟩ = .error "TypeError") ∧
    (∀ m cl, getElementById d "navMenu" = some m → classListOf d m = some cl →
      ∀ ls, ∃ pg1 cl1, toggleMenu ⟨d, ls⟩ = .ok pg1 ∧ classListOf pg1.document m = some cl1 ∧
        ("open" ∈ cl1 ↔ "open" ∉ cl)) := by
  refine ⟨⟨⟨d, []⟩, boot_eq d evs, fun m hm => ⟨getElementById_idAt hm, rfl⟩⟩, ?_, ?_⟩
  · intro hm ls
    simp [toggleMenu, hm, classListToggle]
  · intro m cl hm hcl ls
    refine ⟨_, DOMTokenList.toggle "open" cl, by simp [toggleMenu, hm, classListToggle]; rfl,
      ?_, DOMTokenList.mem_toggle_self "open" cl⟩
    simp [classListOf_modifyClassList, hcl]

/-- C9 fails on the script as shipped.  The closure of lines 15 to 19 does
leave the page alone for a click on the toggle or inside the links container,
but on the sample page, where the marker is absent, a click on the toggle
`[0, 0]` and a click on the icon `[0, 0, 0]` inside it both end with the class
list `nav`: no listener of the toggle exists that would set the marker. -/
theorem shipped_toggle_click_does_not_open :
    getElementById sampleDoc "nav-toggle" = some [0, 0] ∧
    getElementById sampleDoc "nav-links" = some [0, 1] ∧
    markerAbsent sampleDoc [0, 1] ∧
    (Listener.outsideClick (some [0, 0]) (some [0, 1])).handleEvent [0, 0] ⟨sampleDoc, []⟩ =
      .ok ⟨sampleDoc, []⟩ ∧
    (Listener.outsideClick (some [0, 0]) (some [0, 1])).handleEvent [0, 1, 0] ⟨sampleDoc, []⟩ =
      .ok ⟨sampleDoc, []⟩ ∧
    (boot sampleDoc [.ready, .click [0, 0]]).toOption.map
      (fun pg => (pg.listeners, classListOf pg.document [0, 1])) = some ([], some ["nav"]) ∧
    (boot sampleDoc [.ready, .click [0, 0, 0]]).toOption.map
      (fun pg => (pg.listeners, classListOf pg.document [0, 1])) = some ([], some ["nav"]) ∧
    ¬ (∃ pg, boot sampleDoc [.ready, .click [0, 0, 0]] = .ok pg ∧
      markerPresent pg.document [0, 1]) := by
  refine ⟨by decide, by decide, by decide, rfl, rfl, by rfl, by rfl, ?_⟩
  rintro ⟨pg, hpg, hopen⟩
  rw [boot_eq] at hpg
  cases hpg
  revert hopen
  decide

/-- C10: the two click listeners change only the token `open` of the links
container.  A call of either returns without an error, keeps the listeners,
keeps the class list of every element other than the links container (the
toggle is such an element), and keeps every token other than `open` on the
links container; the same holds for a fully dispatched click after setup. -/
theorem click_listeners_frame (d : Document) (t l : NodeRef)
    (ht : getElementById d "nav-toggle" = some t)
    (hl : getElementById d "nav-links" = some l) :
    t ≠ l ∧
    (∀ (h : Listener), h = .toggleClick (some l) ∨ h = .outsideClick (some t) (some l) →
      ∀ (pg : Page) (target : NodeRef),
        ∃ pg1, h.handleEvent target pg = .ok pg1 ∧ pg1.listeners = pg.listeners ∧
          (∀ n, n ≠ l → classListOf pg1.document n = classListOf pg.document n) ∧
          (∀ cl, classListOf pg.document l = some cl →
            ∃ cl1, classListOf pg1.document l = some cl1 ∧
              ∀ c, c ≠ "open" → (c ∈ cl1 ↔ c ∈ cl))) ∧
    (∀ (clicks : List NodeRef) (target : NodeRef),
      ∃ pg, boot d (.ready :: clicks.map Event.click) = .ok pg ∧
        ∃ pg1, Event.fire (.click target) pg = .ok pg1 ∧
          (∀ n, n ≠ l → classListOf pg1.document n = classListOf pg.document n) ∧
          ∃ cl cl1, classListOf pg.document l = some cl ∧
            classListOf pg1.document l = some cl1 ∧
            ∀ c, c ≠ "open" → (c ∈ cl1 ↔ c ∈ cl)) := by
  refine ⟨getElementById_ne ht hl (by decide), ?_, ?_⟩
  · intro h hh pg target
    rcases hh with hh | hh
    · subst hh
      refine ⟨pg.toggleOpen l, rfl, rfl, ?_, ?_⟩
      · intro n hn
        simp [Page.classListOf_toggleOpen, hn]
      · intro cl hcl
        refine ⟨DOMTokenList.toggle "open" cl, ?_, ?_⟩
        · simp [Page.classListOf_toggleOpen, hcl]
        · intro c hc
          exact DOMTokenList.mem_toggle_other "open" c cl hc
    · subst hh
      rw [handleEvent_outsideClick]
      by_cases hc : (l.isPrefixOf target || t.isPrefixOf target) = true
      · rw [if_pos hc]
        exact ⟨pg, rfl, rfl, fun _ _ => rfl, fun cl hcl => ⟨cl, hcl, fun _ _ => Iff.rfl⟩⟩
      · rw [if_neg hc]
        refine ⟨pg.removeOpen l, rfl, rfl, ?_, ?_⟩
        · intro n hn
          simp [Page.classListOf_removeOpen, hn]
        · intro cl hcl
          refine ⟨DOMTokenList.remove "open" cl, ?_, ?_⟩
          · simp [Page.classListOf_removeOpen, hcl]
          · intro c hc
            simp [DOMTokenList.mem_remove, hc]
  · intro clicks target
    obtain ⟨cl, hcl⟩ := classListOf_isSome_of_idAt "nav-links" (getElementById_idAt hl)
    exact ⟨⟨d, []⟩, boot_eq d _, ⟨d, []⟩, fire_of_no_listeners _ _ rfl, fun _ _ => rfl,
      cl, cl, hcl, hcl, fun _ _ => Iff.rfl⟩

/-- On the sample page, a click on the icon after a click on the toggle and a
click on the main area. -/
theorem click_listeners_frame_witness :
    getElementById sampleDoc "nav-toggle" = some [0, 0] ∧
    getElementById sampleDoc "nav-links" = some [0, 1] ∧
    ∃ pg, boot sampleDoc (.ready :: ([[0, 0], [0, 2]] : List NodeRef).map Event.click) = .ok pg ∧
      ∃ pg1, Event.fire (.click [0, 0, 0]) pg = .ok pg1 ∧
        (∀ n, n ≠ [0, 1] → classListOf pg1.document n = classListOf pg.document n) ∧
        ∃ cl cl1, classListOf pg.document [0, 1] = some cl ∧
          classListOf pg1.document [0, 1] = some cl1 ∧
          ∀ c, c ≠ "open" → (c ∈ cl1 ↔ c ∈ cl) :=
  ⟨by decide, by decide,
    (click_listeners_frame sampleDoc [0, 0] [0, 1] (by decide) (by decide)).2.2
      [[0, 0], [0, 2]] [0, 0, 0]⟩

/-! ## Runs on the sample documents -/

theorem sample_lookup :
    getElementById sampleDoc "nav-toggle" = some [0, 0] ∧
    getElementById sampleDoc "nav-links" = some [0, 1] ∧
    getElementById sampleDoc "navMenu" = none ∧
    getElementById sampleDocNoLinks "navMenu" = some [0, 1] ∧
    classListOf sampleDoc [0, 1] = some ["nav"] := by decide

theorem sample_markers :
    markerAbsent sampleDoc [0, 1] ∧ markerPresent sampleDocOpen [0, 1] ∧
    ¬ markerPresent sampleDoc [0, 1] ∧ ¬ markerAbsent sampleDoc [0, 5] := by decide

theorem sample_closures :
    ((Listener.toggleClick (some [0, 1])).handleEvent [0, 0, 0] ⟨sampleDocOpen, []⟩).toOption.map
      (fun pg => classListOf pg.document [0, 1]) = some (some ["nav"]) ∧
    ((Listener.outsideClick (some [0, 0]) (some [0, 1])).handleEvent [0, 1, 0]
      ⟨sampleDocOpen, []⟩).toOption.map
      (fun pg => classListOf pg.document [0, 1]) = some (some ["nav", "open"]) ∧
    ((Listener.outsideClick none (some [0, 1])).handleEvent [0, 2] ⟨sampleDocOpen, []⟩).toOption
      = none ∧
    (toggleMenu ⟨sampleDocNoLinks, []⟩).toOption.map
      (fun pg => classListOf pg.document [0, 1]) = some (some ["menu", "open"]) :=
  ⟨rfl, rfl, rfl, rfl⟩

theorem sample_registered_closures_run :
    (dispatchEvent .click [0, 0, 0]
      ⟨sampleDoc, [⟨[0, 0], .click, .toggleClick (some [0, 1])⟩,
        ⟨[], .click, .outsideClick (some [0, 0]) (some [0, 1])⟩]⟩).toOption.map
      (fun pg => classListOf pg.document [0, 1]) = some (some ["nav", "open"]) ∧
    (dispatchEvent .click [0, 2]
      ⟨sampleDocOpen, [⟨[0, 0], .click, .toggleClick (some [0, 1])⟩,
        ⟨[], .click, .outsideClick (some [0, 0]) (some [0, 1])⟩]⟩).toOption.map
      (fun pg => classListOf pg.document [0, 1]) = some (some ["nav"]) :=
  ⟨rfl, rfl⟩

end NavToggle
